import Mathlib

/-!
Verification of the AST layer of the libsass `ast.hpp` bundled with
iffy/libsass-python, against its natural-language specification.

The embedding is shallow: each C++ class is modelled by a Lean structure or
inductive holding the same data, constructors become total functions (the
source constructors raise no errors — the validation branches of the source
are empty statements marked only by comments), and the `Vectorized<T>` mixin
becomes a generic record of an element list plus the derived flag state,
with the subclass's `adjust_after_pushing` hook passed explicitly.

Modelled from the spec: the `ADD_PROPERTY(type, name)` macro is declared in
`ast_def_macros.hpp`, which is not part of the given source. Following the
spec's data model (§3), a property is modelled as a stored field with a read
accessor, and a re-declaration of a property name in a subclass (as in
`Selector_Combination` and `Selector_Group`, which re-declare
`has_reference`/`has_placeholder` already present in `Selector`) denotes the
same logical property of the object.
-/

namespace Sass

/--
Model of the `Vectorized<T>` mixin (ast.hpp lines 25-50).  `elements` is the
`vector<T> elements_`; `flags` is the derived state of the concrete subclass
that `adjust_after_pushing` updates (the mixin itself has none — subclasses
pass their own state type for `σ`); `hookCalls` counts the invocations of the
`adjust_after_pushing` hook, which the source performs once per `operator<<`.
-/
structure Vectorized (T : Type) (σ : Type) where
  elements : List T
  flags : σ
  hookCalls : Nat
deriving DecidableEq

/-- `Vectorized::length()`: `elements_.size()`. -/
def Vectorized.length {T σ : Type} (v : Vectorized T σ) : Nat :=
  v.elements.length

/-- `Vectorized::empty()`: `elements_.empty()`. -/
def Vectorized.isEmptySeq {T σ : Type} (v : Vectorized T σ) : Bool :=
  v.elements.isEmpty

/--
`Vectorized::operator[](size_t i)`: returns `elements_[i]`, an unchecked
`std::vector` access.  In range it yields the stored element; the source
performs no bounds check, so out of range it has no defined result — the
absent result is embedded as `none`.
-/
def Vectorized.get? {T σ : Type} (v : Vectorized T σ) (i : Nat) : Option T :=
  v.elements.get? i

/--
`Vectorized::operator<<(T element)`: `elements_.push_back(element);
adjust_after_pushing(element);`.  The hook of the concrete subclass is the
explicit argument `hook`.
-/
def Vectorized.push {T σ : Type} (hook : σ → T → σ) (v : Vectorized T σ) (e : T) :
    Vectorized T σ :=
  { elements := v.elements ++ [e]
    flags := hook v.flags e
    hookCalls := v.hookCalls + 1 }

/--
The loop body of `Vectorized::operator+=(Vectorized* v)`:
`for (size_t i = 0, L = v->length(); i < L; ++i) *this << (*v)[i];`
modelled as recursion on the index `i`.  The argument sequence `b` may carry
a different flag state `σ₂`, as in the source, where any `Vectorized<T>`
subclass can be the right-hand side; only its elements are read.
-/
def Vectorized.extendAux {T σ σ₂ : Type} (hook : σ → T → σ) (b : Vectorized T σ₂) :
    Nat → Vectorized T σ → Vectorized T σ
  | i, a =>
    if h : i < b.elements.length then
      Vectorized.extendAux hook b (i + 1) (Vectorized.push hook a (b.elements.get ⟨i, h⟩))
    else a
termination_by i _ => b.elements.length - i

/-- `Vectorized::operator+=`: run the index loop from `i = 0`. -/
def Vectorized.extendOp {T σ σ₂ : Type} (hook : σ → T → σ)
    (a : Vectorized T σ) (b : Vectorized T σ₂) : Vectorized T σ :=
  Vectorized.extendAux hook b 0 a

/-- The index loop from position `i` appends exactly the dropped suffix. -/
theorem Vectorized.extendAux_eq_foldl {T σ σ₂ : Type} (hook : σ → T → σ)
    (b : Vectorized T σ₂) (i : Nat) (a : Vectorized T σ) :
    Vectorized.extendAux hook b i a =
      (b.elements.drop i).foldl (Vectorized.push hook) a := by
  generalize hn : b.elements.length - i = n
  induction n generalizing i a with
  | zero =>
    rw [Vectorized.extendAux]
    have hge : b.elements.length ≤ i := by omega
    have hlt : ¬ i < b.elements.length := by omega
    simp [hlt, List.drop_eq_nil_of_le hge]
  | succ n ih =>
    rw [Vectorized.extendAux]
    have hi : i < b.elements.length := by omega
    simp only [hi, dif_pos, List.get_eq_getElem]
    rw [ih (i + 1) _ (by omega), List.drop_eq_getElem_cons hi, List.foldl_cons]

/-- Elements after a fold of pushes: the pushed list is appended in order. -/
theorem Vectorized.foldl_push_elements {T σ : Type} (hook : σ → T → σ)
    (l : List T) (a : Vectorized T σ) :
    (l.foldl (Vectorized.push hook) a).elements = a.elements ++ l := by
  induction l generalizing a with
  | nil => simp
  | cons x xs ih => simp [List.foldl, ih, Vectorized.push]

/-- Flag state after a fold of pushes: the hook folded over the pushed list. -/
theorem Vectorized.foldl_push_flags {T σ : Type} (hook : σ → T → σ)
    (l : List T) (a : Vectorized T σ) :
    (l.foldl (Vectorized.push hook) a).flags = l.foldl hook a.flags := by
  induction l generalizing a with
  | nil => rfl
  | cons x xs ih => simp [List.foldl, ih, Vectorized.push]

/-- Hook invocations after a fold of pushes: one per pushed element. -/
theorem Vectorized.foldl_push_hookCalls {T σ : Type} (hook : σ → T → σ)
    (l : List T) (a : Vectorized T σ) :
    (l.foldl (Vectorized.push hook) a).hookCalls = a.hookCalls + l.length := by
  induction l generalizing a with
  | nil => simp
  | cons x xs ih => simp [List.foldl, ih, Vectorized.push]; omega

/--
The concrete `Statement` kinds of ast.hpp (lines 70-371).  `is_hoistable` is
a fixed per-kind constant (§4.2 of the spec), so for the hoistability claims
a statement is represented by its kind.
-/
inductive StatementKind where
  | block
  | ruleset
  | propset
  | mediaBlock
  | atRule
  | declaration
  | assignment
  | importNode
  | importStub
  | warning
  | comment
  | ifNode
  | forNode
  | eachNode
  | whileNode
  | returnNode
  | content
  | extendNode
  | definition
  | mixinCall
deriving DecidableEq

/--
`Statement::is_hoistable()` (line 75) returns `false`; only
`Ruleset::is_hoistable()` (line 127) overrides it to return `true`.
-/
def StatementKind.is_hoistable : StatementKind → Bool
  | .ruleset => true
  | _ => false

/-- The flag properties of `Block` (lines 83-86). -/
structure BlockState where
  is_root : Bool
  has_hoistable : Bool
  has_non_hoistable : Bool
deriving DecidableEq

/--
`Block::adjust_after_pushing(Statement* s)` (lines 88-92), exactly as
written in the source:
`if (s->is_hoistable()) has_hoistable_ = true; else has_non_hoistable_ = false;`
(note the `false` in the else branch — this is what the source assigns).
-/
def Block.adjust_after_pushing (st : BlockState) (s : StatementKind) : BlockState :=
  if s.is_hoistable then { st with has_hoistable := true }
  else { st with has_non_hoistable := false }

/-- A `Block` is `Vectorized<Statement*>` with the flag state above. -/
abbrev Block := Vectorized StatementKind BlockState

/-- The `Block` constructor (lines 94-98): empty, flags `r, false, false`. -/
def Block.make (r : Bool) : Block :=
  { elements := [], flags := { is_root := r, has_hoistable := false, has_non_hoistable := false }, hookCalls := 0 }

/-- Appending one statement: `*block << s`. -/
def Block.pushStmt (b : Block) (s : StatementKind) : Block :=
  Vectorized.push Block.adjust_after_pushing b s

/-- A non-root `Block` built by appending the given statements in order. -/
def Block.build (l : List StatementKind) : Block :=
  l.foldl Block.pushStmt (Block.make false)

/--
Stand-in for `Expression*` values.  The hooks and constructors verified here
inspect an expression pointer only for nullity (`p->default_value()`), never
its contents, so a single-constructor type suffices and null pointers are
`Option.none`.
-/
inductive Expr where
  | mk
deriving DecidableEq

/--
`Parameter` (lines 616-626): name, `default_value` (an `Expression*`, null
modelled as `none`), `is_rest_parameter`.
-/
structure Parameter where
  name : String
  default_value : Option Expr
  is_rest_parameter : Bool
deriving DecidableEq

/--
The `Parameter` constructor (lines 621-624).  Its body is
`{ /* TO-DO: error if default_value && is_packed */ }` — the check is only a
comment, so construction always succeeds with the given fields.
-/
def Parameter.make (n : String) (d : Option Expr) (rest : Bool) : Parameter :=
  { name := n, default_value := d, is_rest_parameter := rest }

/-- The flag properties of `Parameters` (lines 634-635). -/
structure ParametersState where
  has_optional_parameters : Bool
  has_rest_parameter : Bool
deriving DecidableEq

/--
`Parameters::adjust_after_pushing(Parameter* p)` (lines 637-657).  Every
branch written `; // error` or `; // different error` in the source is an
empty statement: no error is raised and no state changes there, so those
branches are no-ops here.
-/
def Parameters.adjust_after_pushing (st : ParametersState) (p : Parameter) : ParametersState :=
  if p.default_value.isSome then
    { st with has_optional_parameters := true }
  else if p.is_rest_parameter then
    { st with has_rest_parameter := true }
  else
    st

/-- `Parameters` is `Vectorized<Parameter*>` with the flag state above. -/
abbrev Parameters := Vectorized Parameter ParametersState

/-- The `Parameters` constructor (lines 659-664): empty, both flags false. -/
def Parameters.make : Parameters :=
  { elements := [], flags := { has_optional_parameters := false, has_rest_parameter := false }, hookCalls := 0 }

/-- Appending one parameter: `*params << p`. -/
def Parameters.pushParam (v : Parameters) (p : Parameter) : Parameters :=
  Vectorized.push Parameters.adjust_after_pushing v p

/--
`Argument` (lines 671-680): value, optional name (empty string when the
argument is positional), `is_rest_argument`.
-/
structure Argument where
  value : Expr
  name : String
  is_rest_argument : Bool
deriving DecidableEq

/--
The `Argument` constructor (lines 676-678).  Its body is
`{ if (name_ != "" && is_rest_argument_) { /* error */ } }` — the branch is
an empty comment, so construction always succeeds with the given fields.
-/
def Argument.make (v : Expr) (n : String) (rest : Bool) : Argument :=
  { value := v, name := n, is_rest_argument := rest }

/-- The flag properties of `Arguments` (lines 688-689). -/
structure ArgumentsState where
  has_named_arguments : Bool
  has_rest_argument : Bool
deriving DecidableEq

/--
`Arguments::adjust_after_pushing(Argument* a)` (lines 691-711).  As in
`Parameters`, every `; // error` branch is an empty statement and hence a
no-op.  The first test is `if (!a->name().empty())`.
-/
def Arguments.adjust_after_pushing (st : ArgumentsState) (a : Argument) : ArgumentsState :=
  if !a.name.isEmpty then
    { st with has_named_arguments := true }
  else if a.is_rest_argument then
    { st with has_rest_argument := true }
  else
    st

/-- `Arguments` is `Vectorized<Argument*>` with the flag state above. -/
abbrev Arguments := Vectorized Argument ArgumentsState

/-- The `Arguments` constructor (lines 713-718): empty, both flags false. -/
def Arguments.make : Arguments :=
  { elements := [], flags := { has_named_arguments := false, has_rest_argument := false }, hookCalls := 0 }

/-- Appending one argument: `*args << a`. -/
def Arguments.pushArg (v : Arguments) (a : Argument) : Arguments :=
  Vectorized.push Arguments.adjust_after_pushing v a

/--
The concrete `Simple_Selector` kinds (lines 764-846).  `Selector_Reference`
also carries a non-owning `Selector*` back-reference and `Pseudo_Selector`
an optional argument expression; neither is read by any flag computation, so
the back-reference is omitted and the pseudo argument kept as an `Option`.
-/
inductive SimpleSelector where
  | reference
  | placeholder (name : String)
  | typeSelector (name : String)
  | qualifier (name : String)
  | attribute (name matcher value : String)
  | pseudo (name : String) (expression : Option Expr)
  | negated (selector : SimpleSelector)
deriving DecidableEq

/--
The `has_reference` flag a simple selector carries after construction.  The
`Selector` base initializes it to `false` (line 729); only the
`Selector_Reference` constructor sets it (`has_reference(true)`, line 769).
In particular the `Negated_Selector` constructor (lines 842-844) does not
copy its wrapped selector's flags, so a negation's own flag stays `false`.
-/
def SimpleSelector.has_reference : SimpleSelector → Bool
  | .reference => true
  | _ => false

/--
The `has_placeholder` flag a simple selector carries after construction;
only the `Selector_Placeholder` constructor sets it (`has_placeholder(true)`,
line 781).
-/
def SimpleSelector.has_placeholder : SimpleSelector → Bool
  | .placeholder _ => true
  | _ => false

/-- The two derived flags of the `Selector` base class (lines 726-727). -/
structure SelectorFlags where
  has_reference : Bool
  has_placeholder : Bool
deriving DecidableEq

/--
`Simple_Selector_Sequence::adjust_after_pushing(Simple_Selector* s)`
(lines 854-858):
`has_reference(has_reference() || s->has_reference());`
`has_placeholder(has_placeholder() || s->has_placeholder());`
-/
def Simple_Selector_Sequence.adjust_after_pushing (st : SelectorFlags) (s : SimpleSelector) :
    SelectorFlags :=
  { has_reference := st.has_reference || s.has_reference
    has_placeholder := st.has_placeholder || s.has_placeholder }

/-- `Simple_Selector_Sequence` is `Vectorized<Simple_Selector*>`. -/
abbrev Simple_Selector_Sequence := Vectorized SimpleSelector SelectorFlags

/-- The `Simple_Selector_Sequence` constructor (lines 860-863): empty, base flags false. -/
def Simple_Selector_Sequence.make : Simple_Selector_Sequence :=
  { elements := [], flags := { has_reference := false, has_placeholder := false }, hookCalls := 0 }

/-- Appending one simple selector: `*seq << s`. -/
def Simple_Selector_Sequence.pushSimple (v : Simple_Selector_Sequence) (s : SimpleSelector) :
    Simple_Selector_Sequence :=
  Vectorized.push Simple_Selector_Sequence.adjust_after_pushing v s

/-- A `Simple_Selector_Sequence` built by appending the given simple selectors in order. -/
def Simple_Selector_Sequence.build (l : List SimpleSelector) : Simple_Selector_Sequence :=
  l.foldl Simple_Selector_Sequence.pushSimple Simple_Selector_Sequence.make

/-- The `Selector_Combination::Combinator` tag (line 874). -/
inductive Combinator where
  | ANCESTOR_OF
  | PARENT_OF
  | PRECEDES
  | ADJACENT_TO
deriving DecidableEq

/--
`Selector_Combination` (lines 872-895): a combinator tag, an optional head
sequence, an optional tail combination (`Simple_Selector_Sequence*` and
`Selector_Combination*` may be null), and the two flags stored on the node.
-/
inductive Selector_Combination where
  | node (combinator : Combinator)
         (head : Option Simple_Selector_Sequence)
         (tail : Option Selector_Combination)
         (has_reference : Bool)
         (has_placeholder : Bool)

/-- Accessor `combinator()`. -/
def Selector_Combination.combinator : Selector_Combination → Combinator
  | .node c _ _ _ _ => c

/-- Accessor `head()`. -/
def Selector_Combination.head : Selector_Combination → Option Simple_Selector_Sequence
  | .node _ h _ _ _ => h

/-- Accessor `tail()`. -/
def Selector_Combination.tail : Selector_Combination → Option Selector_Combination
  | .node _ _ t _ _ => t

/-- Accessor `has_reference()`. -/
def Selector_Combination.has_reference : Selector_Combination → Bool
  | .node _ _ _ r _ => r

/-- Accessor `has_placeholder()`. -/
def Selector_Combination.has_placeholder : Selector_Combination → Bool
  | .node _ _ _ _ ph => ph

/--
The `Selector_Combination` constructor (lines 882-893).  The flags are
computed once, from
`h && h->has_reference() || t && t->has_reference()` and
`h && h->has_placeholder() || t && t->has_placeholder()`:
with C++ precedence, a conjunction of a null test and the operand's flag on
each side of `||`, a null `head` or `tail` contributing `false`.
-/
def Selector_Combination.make (c : Combinator)
    (h : Option Simple_Selector_Sequence) (t : Option Selector_Combination) :
    Selector_Combination :=
  .node c h t
    ((h.elim false (fun s => s.flags.has_reference)) ||
     (t.elim false Selector_Combination.has_reference))
    ((h.elim false (fun s => s.flags.has_placeholder)) ||
     (t.elim false Selector_Combination.has_placeholder))

/--
`Selector_Group::adjust_after_pushing(Selector_Combination* c)`
(lines 905-909):
`has_reference_ |= c->has_reference(); has_placeholder_ |= c->has_placeholder();`
-/
def Selector_Group.adjust_after_pushing (st : SelectorFlags) (c : Selector_Combination) :
    SelectorFlags :=
  { has_reference := st.has_reference || c.has_reference
    has_placeholder := st.has_placeholder || c.has_placeholder }

/-- `Selector_Group` is `Vectorized<Selector_Combination*>`. -/
abbrev Selector_Group := Vectorized Selector_Combination SelectorFlags

/-- The `Selector_Group` constructor (lines 911-916): empty, both flags false. -/
def Selector_Group.make : Selector_Group :=
  { elements := [], flags := { has_reference := false, has_placeholder := false }, hookCalls := 0 }

/-- Appending one combination: `*group << c`. -/
def Selector_Group.pushComb (v : Selector_Group) (c : Selector_Combination) : Selector_Group :=
  Vectorized.push Selector_Group.adjust_after_pushing v c

/-- A `Selector_Group` built by appending the given combinations in order. -/
def Selector_Group.build (l : List Selector_Combination) : Selector_Group :=
  l.foldl Selector_Group.pushComb Selector_Group.make

/--
The spec's reading of the sequence-flag invariant, stated in its own words:
the OR of `has_reference` over all directly and transitively contained
simple selectors of one simple selector — the selector itself and, through a
negation, its wrapped selector.  Compared below with the flag the code
computes.
-/
def SimpleSelector.specTransitiveReference : SimpleSelector → Bool
  | .reference => true
  | .negated s => s.specTransitiveReference
  | _ => false

/-- A `Parameters` list built by appending the given parameters in order. -/
def Parameters.build (l : List Parameter) : Parameters :=
  l.foldl Parameters.pushParam Parameters.make

/-- An `Arguments` list built by appending the given arguments in order. -/
def Arguments.build (l : List Argument) : Arguments :=
  l.foldl Arguments.pushArg Arguments.make

/-- Folding `Block::adjust_after_pushing` ORs each statement's hoistability into the flag. -/
theorem Block.foldl_adjust_has_hoistable (l : List StatementKind) (st : BlockState) :
    (l.foldl Block.adjust_after_pushing st).has_hoistable =
      (st.has_hoistable || l.any StatementKind.is_hoistable) := by
  induction l generalizing st with
  | nil => simp
  | cons x xs ih =>
    simp only [List.foldl_cons, List.any_cons]
    rw [ih]
    by_cases hx : x.is_hoistable <;>
      simp [Block.adjust_after_pushing, hx, Bool.or_assoc]

/-- The `has_hoistable` flag of a built block is the OR of its statements' hoistability. -/
theorem Block.build_has_hoistable (l : List StatementKind) :
    (Block.build l).flags.has_hoistable = l.any StatementKind.is_hoistable := by
  show (l.foldl (Vectorized.push Block.adjust_after_pushing) (Block.make false)).flags.has_hoistable = _
  rw [Vectorized.foldl_push_flags, Block.foldl_adjust_has_hoistable]
  rfl

/-- Folding a hook that ORs `f`/`g` of each element into the two selector flags. -/
theorem SelectorFlags.foldl_or_hook {T : Type} (f g : T → Bool)
    (hook : SelectorFlags → T → SelectorFlags)
    (hh : ∀ st e, hook st e =
      { has_reference := st.has_reference || f e, has_placeholder := st.has_placeholder || g e })
    (l : List T) (st : SelectorFlags) :
    l.foldl hook st =
      { has_reference := st.has_reference || l.any f
        has_placeholder := st.has_placeholder || l.any g } := by
  induction l generalizing st with
  | nil => simp
  | cons x xs ih => simp [List.foldl_cons, hh, ih, Bool.or_assoc]

/--
Claim C1: the spec says `Parameters` rejects the orders (optional, required),
(rest, required) and (optional, rest, optional), raising
`ParameterOrderingViolation` at the offending append.  In the source every
rejection branch of `Parameters::adjust_after_pushing` is an empty statement
(`; // error`), so each of those appends completes silently: the element is
stored and only the flags change.  This theorem evaluates the three rejected
orders and shows every append succeeded.
-/
theorem parameters_rejected_orders_append_silently :
    (Parameters.build [Parameter.make "o" (some Expr.mk) false,
                       Parameter.make "r" none false]).length = 2
  ∧ (Parameters.build [Parameter.make "o" (some Expr.mk) false,
                       Parameter.make "r" none false]).flags =
      { has_optional_parameters := true, has_rest_parameter := false }
  ∧ (Parameters.build [Parameter.make "v" none true,
                       Parameter.make "r" none false]).length = 2
  ∧ (Parameters.build [Parameter.make "v" none true,
                       Parameter.make "r" none false]).flags =
      { has_optional_parameters := false, has_rest_parameter := true }
  ∧ (Parameters.build [Parameter.make "o" (some Expr.mk) false,
                       Parameter.make "v" none true,
                       Parameter.make "p" (some Expr.mk) false]).length = 3
  ∧ (Parameters.build [Parameter.make "o" (some Expr.mk) false,
                       Parameter.make "v" none true,
                       Parameter.make "p" (some Expr.mk) false]).flags =
      { has_optional_parameters := true, has_rest_parameter := true } :=
  ⟨rfl, rfl, rfl, rfl, rfl, rfl⟩

/--
Claim C2: the spec says `Arguments` rejects (named, positional) and
(rest, positional), and that constructing an `Argument` with a non-empty
name and the rest flag raises `ArgumentOrderingViolation` at construction.
In the source the constructor's check body is an empty comment
(`{ /* error */ }`) and every rejection branch of
`Arguments::adjust_after_pushing` is an empty statement, so construction and
the rejected appends all complete silently.
-/
theorem arguments_rejected_orders_append_silently :
    Argument.make Expr.mk "x" true =
      { value := Expr.mk, name := "x", is_rest_argument := true }
  ∧ (Arguments.build [Argument.make Expr.mk "x" false,
                      Argument.make Expr.mk "" false]).length = 2
  ∧ (Arguments.build [Argument.make Expr.mk "x" false,
                      Argument.make Expr.mk "" false]).flags =
      { has_named_arguments := true, has_rest_argument := false }
  ∧ (Arguments.build [Argument.make Expr.mk "" true,
                      Argument.make Expr.mk "" false]).length = 2
  ∧ (Arguments.build [Argument.make Expr.mk "" true,
                      Argument.make Expr.mk "" false]).flags =
      { has_named_arguments := false, has_rest_argument := true } :=
  ⟨rfl, rfl, rfl, rfl, rfl⟩

/--
Claim C3: the spec says appending a non-hoistable statement sets
`has_non_hoistable` to true.  The source's else branch assigns
`has_non_hoistable_ = false`, so the flag stays false after a non-hoistable
append; `has_hoistable` is indeed left unchanged (it stays true for a block
that already holds a hoistable statement).  Evaluation at the failing input.
-/
theorem block_non_hoistable_append_assigns_false :
    (Block.pushStmt (Block.make false) StatementKind.comment).flags =
      { is_root := false, has_hoistable := false, has_non_hoistable := false }
  ∧ (Block.build [StatementKind.ruleset, StatementKind.comment]).flags =
      { is_root := false, has_hoistable := true, has_non_hoistable := false } :=
  ⟨rfl, rfl⟩

/--
Claim C4: a block built by any sequence of appends has `has_hoistable = true`
when some appended statement is a `Ruleset`, and `has_hoistable = false` when
every appended statement is non-hoistable.
-/
theorem block_has_hoistable_tracks_rulesets (l : List StatementKind) :
    (StatementKind.ruleset ∈ l → (Block.build l).flags.has_hoistable = true)
    ∧ ((∀ s ∈ l, s.is_hoistable = false) → (Block.build l).flags.has_hoistable = false) := by
  constructor
  · intro hmem
    rw [Block.build_has_hoistable]
    exact List.any_eq_true.mpr ⟨_, hmem, rfl⟩
  · intro hall
    rw [Block.build_has_hoistable]
    exact List.any_eq_false.mpr (fun s hs => by simp [hall s hs])

/-- Witness for claim C4 at the concrete blocks `[ruleset]` and `[comment]`. -/
theorem block_has_hoistable_tracks_rulesets_witness :
    (Block.build [StatementKind.ruleset]).flags.has_hoistable = true
    ∧ (Block.build [StatementKind.comment]).flags.has_hoistable = false :=
  ⟨(block_has_hoistable_tracks_rulesets [StatementKind.ruleset]).1 (by decide),
   (block_has_hoistable_tracks_rulesets [StatementKind.comment]).2 (by decide)⟩

/--
Claim C5: the spec says constructing a `Parameter` with both a default value
and the rest flag raises `InvalidParameterDefault`.  The source constructor
carries only the comment `/* TO-DO: error if default_value && is_packed */`
and performs no check, so the construction succeeds with both set.
-/
theorem parameter_with_default_and_rest_constructs :
    Parameter.make "x" (some Expr.mk) true =
      { name := "x", default_value := some Expr.mk, is_rest_parameter := true } :=
  rfl

/--
Claim C6: for the chain `ANCESTOR_OF(head = A, tail = PARENT_OF(head = B,
tail = null))`, the accessors expose `tail.head = B` and `tail.tail = null`,
and the outer combination's construction-time flags are the OR of A's and
B's flags; a null head or tail contributes false.
-/
theorem selector_combination_chain_accessors_and_flags
    (A B : Simple_Selector_Sequence) :
    (Selector_Combination.make Combinator.ANCESTOR_OF (some A)
        (some (Selector_Combination.make Combinator.PARENT_OF (some B) none))).tail =
      some (Selector_Combination.make Combinator.PARENT_OF (some B) none)
  ∧ (Selector_Combination.make Combinator.PARENT_OF (some B) none).head = some B
  ∧ (Selector_Combination.make Combinator.PARENT_OF (some B) none).tail = none
  ∧ (Selector_Combination.make Combinator.ANCESTOR_OF (some A)
        (some (Selector_Combination.make Combinator.PARENT_OF (some B) none))).has_reference =
      (A.flags.has_reference || B.flags.has_reference)
  ∧ (Selector_Combination.make Combinator.ANCESTOR_OF (some A)
        (some (Selector_Combination.make Combinator.PARENT_OF (some B) none))).has_placeholder =
      (A.flags.has_placeholder || B.flags.has_placeholder)
  ∧ (Selector_Combination.make Combinator.ANCESTOR_OF none none).has_reference = false
  ∧ (Selector_Combination.make Combinator.ANCESTOR_OF none none).has_placeholder = false := by
  refine ⟨rfl, rfl, rfl, ?_, ?_, rfl, rfl⟩ <;>
    simp [Selector_Combination.make, Selector_Combination.has_reference,
          Selector_Combination.has_placeholder]

/--
Claim C7 counterexample: a sequence containing exactly a `Negated_Selector`
wrapping a `Selector_Reference` has `has_reference = false` in the code
(the negation's own constructor-set flag, which is all the append hook
reads), while the OR of `has_reference` over all transitively contained
simple selectors — the spec's formula — is true.
-/
theorem sequence_flag_misses_reference_inside_negation :
    (Simple_Selector_Sequence.build
        [SimpleSelector.negated SimpleSelector.reference]).flags.has_reference = false
  ∧ [SimpleSelector.negated SimpleSelector.reference].any
        SimpleSelector.specTransitiveReference = true :=
  ⟨rfl, rfl⟩

/--
Claim C7 (amended): the flags of a `Simple_Selector_Sequence` are the OR of
the directly appended simple selectors' own constructor-set flags, and the
flags of a `Selector_Group` are the OR of the directly appended
combinations' flags — not the OR over transitively contained selectors,
since a `Negated_Selector` does not expose its wrapped selector's flags.
The spec's example holds: a sequence of a placeholder and a type selector
has `has_placeholder = true` and `has_reference = false`.
-/
theorem selector_flags_or_of_direct_children
    (l : List SimpleSelector) (cs : List Selector_Combination) :
    (Simple_Selector_Sequence.build l).flags =
      { has_reference := l.any SimpleSelector.has_reference
        has_placeholder := l.any SimpleSelector.has_placeholder }
  ∧ (Selector_Group.build cs).flags =
      { has_reference := cs.any Selector_Combination.has_reference
        has_placeholder := cs.any Selector_Combination.has_placeholder }
  ∧ (Simple_Selector_Sequence.build
        [SimpleSelector.placeholder "foo", SimpleSelector.typeSelector "div"]).flags =
      { has_reference := false, has_placeholder := true } := by
  refine ⟨?_, ?_, rfl⟩
  · show (l.foldl (Vectorized.push Simple_Selector_Sequence.adjust_after_pushing)
        Simple_Selector_Sequence.make).flags = _
    rw [Vectorized.foldl_push_flags,
        SelectorFlags.foldl_or_hook SimpleSelector.has_reference SimpleSelector.has_placeholder
          Simple_Selector_Sequence.adjust_after_pushing (fun _ _ => rfl)]
    simp [Simple_Selector_Sequence.make]
  · show (cs.foldl (Vectorized.push Selector_Group.adjust_after_pushing)
        Selector_Group.make).flags = _
    rw [Vectorized.foldl_push_flags,
        SelectorFlags.foldl_or_hook Selector_Combination.has_reference
          Selector_Combination.has_placeholder
          Selector_Group.adjust_after_pushing (fun _ _ => rfl)]
    simp [Selector_Group.make]

/--
Claim C8: `operator+=` (extend) leaves the receiving sequence in exactly the
state reached by appending each element of the argument individually in
order — a fold of `operator<<` — and invokes the post-append hook exactly
once per element of the argument.
-/
theorem extend_equals_individual_appends {T σ σ₂ : Type} (hook : σ → T → σ)
    (a : Vectorized T σ) (b : Vectorized T σ₂) :
    Vectorized.extendOp hook a b = b.elements.foldl (Vectorized.push hook) a
    ∧ (Vectorized.extendOp hook a b).hookCalls = a.hookCalls + b.elements.length := by
  have h : Vectorized.extendOp hook a b = b.elements.foldl (Vectorized.push hook) a := by
    rw [Vectorized.extendOp, Vectorized.extendAux_eq_foldl, List.drop_zero]
  exact ⟨h, by rw [h, Vectorized.foldl_push_hookCalls]⟩

/--
Claim C9: a sequence built by appending e1..en has length n and indexed
access yields the elements in append order; the spec further says an access
with i ≥ n fails with `IndexOutOfRange`, but the source's `operator[]`
forwards to the unchecked `std::vector` access with no bounds test, so out
of range there is no defined result (`none` here) and no error is raised.
Evaluation at a concrete three-element block, including the out-of-range
index 3.
-/
theorem sequence_indexing_in_order_and_unchecked :
    (Block.build [StatementKind.comment, StatementKind.assignment,
                  StatementKind.warning]).length = 3
  ∧ Vectorized.get? (Block.build [StatementKind.comment, StatementKind.assignment,
                  StatementKind.warning]) 0 = some StatementKind.comment
  ∧ Vectorized.get? (Block.build [StatementKind.comment, StatementKind.assignment,
                  StatementKind.warning]) 1 = some StatementKind.assignment
  ∧ Vectorized.get? (Block.build [StatementKind.comment, StatementKind.assignment,
                  StatementKind.warning]) 2 = some StatementKind.warning
  ∧ Vectorized.get? (Block.build [StatementKind.comment, StatementKind.assignment,
                  StatementKind.warning]) 3 = none :=
  ⟨rfl, rfl, rfl, rfl, rfl⟩

/--
Claim C10: in the post-append hooks the default-value test (`Parameters`)
and the non-empty-name test (`Arguments`) come first, so an element with
both that attribute and the rest flag set is classified by the first branch:
the append succeeds, `has_optional_parameters` / `has_named_arguments`
becomes true, and `has_rest_parameter` / `has_rest_argument` is left
unchanged.
-/
theorem default_and_named_tests_precede_rest_test
    (v : Parameters) (p : Parameter)
    (hd : p.default_value.isSome = true) (hdr : p.is_rest_parameter = true)
    (w : Arguments) (a : Argument)
    (hn : a.name.isEmpty = false) (har : a.is_rest_argument = true) :
    (Parameters.pushParam v p).elements = v.elements ++ [p]
    ∧ (Parameters.pushParam v p).flags.has_optional_parameters = true
    ∧ (Parameters.pushParam v p).flags.has_rest_parameter = v.flags.has_rest_parameter
    ∧ (Arguments.pushArg w a).elements = w.elements ++ [a]
    ∧ (Arguments.pushArg w a).flags.has_named_arguments = true
    ∧ (Arguments.pushArg w a).flags.has_rest_argument = w.flags.has_rest_argument := by
  refine ⟨rfl, ?_, ?_, rfl, ?_, ?_⟩ <;>
    simp [Parameters.pushParam, Arguments.pushArg, Vectorized.push,
          Parameters.adjust_after_pushing, Arguments.adjust_after_pushing, hd, hn]

/-- Witness for claim C10 at a both-optional-and-rest parameter and a both-named-and-rest argument. -/
theorem default_and_named_tests_precede_rest_test_witness :
    (Parameters.pushParam Parameters.make (Parameter.make "p" (some Expr.mk) true)).elements =
        Parameters.make.elements ++ [Parameter.make "p" (some Expr.mk) true]
    ∧ (Parameters.pushParam Parameters.make
        (Parameter.make "p" (some Expr.mk) true)).flags.has_optional_parameters = true
    ∧ (Parameters.pushParam Parameters.make
        (Parameter.make "p" (some Expr.mk) true)).flags.has_rest_parameter =
        Parameters.make.flags.has_rest_parameter
    ∧ (Arguments.pushArg Arguments.make (Argument.make Expr.mk "x" true)).elements =
        Arguments.make.elements ++ [Argument.make Expr.mk "x" true]
    ∧ (Arguments.pushArg Arguments.make
        (Argument.make Expr.mk "x" true)).flags.has_named_arguments = true
    ∧ (Arguments.pushArg Arguments.make
        (Argument.make Expr.mk "x" true)).flags.has_rest_argument =
        Arguments.make.flags.has_rest_argument :=
  default_and_named_tests_precede_rest_test
    Parameters.make (Parameter.make "p" (some Expr.mk) true) rfl rfl
    Arguments.make (Argument.make Expr.mk "x" true) rfl rfl

end Sass
